import Mathlib

/-!
Shallow embedding of the single-page client in `src/src/App.tsx` (the only
source file of the repository), together with theorems settling the spec
claims about it.

Conventions of the embedding:
* JavaScript strings are Lean `String`s; the platform primitives `trim`,
  `Number` and `String()` are modelled by the executable `jsTrim`,
  `jsNumber` and `jsStringOfNat` below.
* `crypto.randomUUID()` and the toast store's fresh ids are passed in as
  parameters (the code only uses them as opaque unique tokens).
* An `async` dispatch is split into its synchronous prefix (everything that
  runs before the first `await`) and the continuation that consumes the
  network outcome; the outcome of the network interaction is a parameter of
  the continuation.  This makes "before any network activity" a statement
  about the prefix.
* `JSON.parse` is a platform primitive, not code of this repository; its
  result on the raw body is a parameter of type `Option Json` (`none` means
  the parse threw).
* Timers (`setTimeout`/`clearTimeout`) are modelled as a list of
  `(toastId, fireTime)` pairs; the `ToastContainer` effect re-run that React
  performs after every change of the `toasts` list is modelled as running
  synchronously with the change, which is the deterministic idealisation of
  the event loop.
-/

/-- Toast type tag: `'info' | 'error'` (src line 8). -/
inductive ToastType where
  | info
  | error
deriving DecidableEq, Repr

/-- `Toast` record (src line 8): `{ id: number; text: string; type?: 'info' | 'error' }`. -/
structure Toast where
  id : Nat
  text : String
  type : Option ToastType
deriving DecidableEq, Repr

/-- Argument of the store's `push` (src line 11): a toast without its id. -/
structure ToastInput where
  text : String
  type : Option ToastType := none
deriving DecidableEq, Repr

/-- The store's `push` (src line 11): appends the toast with a freshly
assigned id to the end of the list. -/
def storePush (toasts : List Toast) (newId : Nat) (t : ToastInput) : List Toast :=
  toasts ++ [{ id := newId, text := t.text, type := t.type }]

/-- The store's `remove` (src line 12): `s.toasts.filter((x) => x.id !== id)`. -/
def storeRemove (toasts : List Toast) (id : Nat) : List Toast :=
  toasts.filter (fun x => x.id != id)

/-- The toast display duration in milliseconds (src line 144). -/
def expiryMs : Nat := 3500

/-- The timer set created by one run of the `ToastContainer` effect
(src line 144): one timeout per toast currently in the list, each firing
`expiryMs` after the moment `now` the effect ran. -/
def rescheduleAll (now : Nat) (toasts : List Toast) : List (Nat × Nat) :=
  toasts.map (fun t => (t.id, now + expiryMs))

/-- Toast subsystem state: the store's list plus the pending timeouts of
`ToastContainer` as `(toastId, fireTime)` pairs. -/
structure ToastSys where
  toasts : List Toast
  timers : List (Nat × Nat)
deriving DecidableEq, Repr

/-- A `push` event at wall-clock `time`: the store appends the toast, the
`ToastContainer` effect (whose dependency array contains `toasts`, src
line 146) re-runs, its cleanup clears every previously pending timeout
(src line 145) and a fresh timeout is created for every toast now in the
list (src line 144). -/
def pushEvent (s : ToastSys) (time : Nat) (newId : Nat) (t : ToastInput) : ToastSys :=
  let toasts := storePush s.toasts newId t
  { toasts := toasts, timers := rescheduleAll time toasts }

/-- The first pending timeout that is due at `time`, if any. -/
def dueTimer (s : ToastSys) (time : Nat) : Option (Nat × Nat) :=
  s.timers.find? (fun p => p.2 ≤ time)

/-- Firing the timeout `p`: `remove(p.1)` runs (src line 144), the list
changes, so the effect re-runs at the firing time, clearing the remaining
old timeouts and scheduling fresh ones for the surviving toasts. -/
def fireOne (s : ToastSys) (p : Nat × Nat) : ToastSys :=
  let toasts := storeRemove s.toasts p.1
  { toasts := toasts, timers := rescheduleAll p.2 toasts }

/-- Let wall-clock time advance to `time` with no external events: every
due timeout fires in turn.  `fuel` bounds the number of firings (each
firing removes one toast, so `s.toasts.length` suffices). -/
def advanceTo : Nat → ToastSys → Nat → ToastSys
  | 0, s, _ => s
  | fuel + 1, s, time =>
    match dueTimer s time with
    | none => s
    | some p => advanceTo fuel (fireOne s p) time

/-- Model of JavaScript `String.prototype.trim`: strip whitespace from both
ends (a platform primitive, not code of this repository). -/
def jsTrim (s : String) : String :=
  ⟨((s.data.dropWhile Char.isWhitespace).reverse.dropWhile Char.isWhitespace).reverse⟩

/-- Numeric value of a decimal digit character ('0' = 48). -/
def charDigit (c : Char) : Nat :=
  c.toNat - 48

/-- Model of JS `Number()` on the decimal-digit strings this client feeds
it (the non-`'auto'` `<option>` values, which are `String(m.id)` for the
nonnegative integer ids of the registry). -/
def jsNumber (s : String) : Nat :=
  Nat.ofDigits 10 ((s.data.map charDigit).reverse)

/-- Model of JS `String()` on a nonnegative integer: its decimal digit
string, most significant digit first. -/
def jsStringOfNat (n : Nat) : String :=
  if n = 0 then "0"
  else ⟨((Nat.digits 10 n).map (fun d => Char.ofNat (48 + d))).reverse⟩

/-- The `Llm` record (src lines 18-25); ids are the registry's nonnegative
integer identifiers. -/
structure Llm where
  id : Nat
  modelName : String
  companyName : String
  baseUrl : Option String
  apiKey : Option String
  openAiCompatible : Bool
deriving DecidableEq, Repr

/-- The `<option>` value a registered model contributes to the model select
(src line 293): `String(m.id)`. -/
def optionValue (m : Llm) : String :=
  jsStringOfNat m.id

/-- A JavaScript exception as far as `parseApiError` can observe it: either
an `Error` instance carrying a `message` string, or any other value whose
`String(e)` conversion yields `some s` (or `none` when that conversion
itself throws). -/
inductive JsError where
  | errorObj (message : String)
  | other (stringRep : Option String)
deriving DecidableEq, Repr

/-- `parseApiError` (src lines 135-138): for an `Error` instance, its
`message`, with the falsy empty string replaced by `'Request failed'`
(`e.message || 'Request failed'`); otherwise `String(e)`, falling back to
`'Request failed'` when the conversion throws. -/
def parseApiError : JsError → String
  | .errorObj msg => if msg = "" then "Request failed" else msg
  | .other (some s) => s
  | .other none => "Request failed"

/-- A JSON value, the possible result of `JSON.parse` on a response body.
Objects carry their fields as an association list (duplicate keys are
already collapsed by the parser). -/
inductive Json where
  | str (s : String)
  | num (n : Int)
  | bool (b : Bool)
  | null
  | arr (elems : List Json)
  | obj (fields : List (String × Json))

/-- The guarded field access of src line 341: the value is a non-null
object, it has a field `response`, and that field is a string. -/
def responseField : Json → Option String
  | .obj fields =>
    match fields.lookup "response" with
    | some (.str s) => some s
    | _ => none
  | _ => none

/-- The tri-modal body resolution of `BlockExplorerChat.sendMessage`
(src lines 334-344): `md` starts as the raw body text; if `JSON.parse`
succeeds and yields a string, that string wins; else if it yields an object
with a string field `response`, that field wins; on parse failure (or any
other parsed shape) the raw text stands.  `parsed = none` models the parse
throwing. -/
def resolveMd (raw : String) (parsed : Option Json) : String :=
  match parsed with
  | none => raw
  | some p =>
    match p with
    | .str s => s
    | _ =>
      match responseField p with
      | some s => s
      | none => raw

/-- Message role: `'user' | 'ai'` (src line 220). -/
inductive Role where
  | user
  | ai
deriving DecidableEq, Repr

/-- `ChatMessage` (src line 220): `{ id: string; role: 'user' | 'ai'; text: string; via?: string }`. -/
structure ChatMessage where
  id : String
  role : Role
  text : String
  via : Option String := none
deriving DecidableEq, Repr

/-- The component state of `ChatPage` that `sendMessage` reads and writes
(src lines 223-226). -/
structure ChatState where
  messages : List ChatMessage
  input : String
  loading : Bool
  selectedModel : String
deriving DecidableEq, Repr

/-- The `/chat` request body (src lines 238-239): `{ query, modelId }`. -/
structure ChatRequest where
  query : String
  modelId : Option Nat
deriving DecidableEq, Repr

/-- The `modelId` computation of src line 236:
`selectedModel === 'auto' ? null : Number(selectedModel)`. -/
def modelIdOf (selectedModel : String) : Option Nat :=
  if selectedModel = "auto" then none else some (jsNumber selectedModel)

/-- Outcome of the awaited `/chat` interaction as `ChatPage.sendMessage`
observes it: a parsed 2xx JSON body `{response, response_generated_via}`,
or a rejection (network error, the `Error` thrown on non-2xx whose message
is the body text, or a body-parse failure). -/
inductive ChatOutcome where
  | success (response : String) (via : String)
  | failure (e : JsError)
deriving DecidableEq, Repr

/-- Synchronous prefix of `ChatPage.sendMessage` (src lines 228-236, up to
the first `await`): trim the input; if blank, return unchanged with no
request; otherwise clear the input, append the user message, raise the
loading flag, and form the `/chat` request. -/
def chatSendPre (uid : String) (st : ChatState) : ChatState × Option ChatRequest :=
  let q := jsTrim st.input
  if q = "" then (st, none)
  else
    ({ st with
        messages := st.messages ++ [{ id := uid, role := .user, text := q }]
        input := ""
        loading := true },
      some { query := q, modelId := modelIdOf st.selectedModel })

/-- Result of a whole `sendMessage` run: the final component state, the
toasts pushed during the run, and the request that was issued (if any). -/
structure ChatDispatch where
  state : ChatState
  toasts : List ToastInput
  request : Option ChatRequest
deriving DecidableEq, Repr

/-- Continuation of `ChatPage.sendMessage` after the network outcome is
known (src lines 237-247): on success append exactly one AI message
carrying `response` and `response_generated_via`; on failure push one error
toast with `parseApiError e`; in the `finally`, drop the loading flag. -/
def chatSendPost (uid2 : String) (pre : ChatState × Option ChatRequest)
    (outcome : ChatOutcome) : ChatDispatch :=
  match pre.2 with
  | none => { state := pre.1, toasts := [], request := none }
  | some req =>
    match outcome with
    | .success r v =>
      { state := { pre.1 with
          messages := pre.1.messages ++ [{ id := uid2, role := .ai, text := r, via := some v }]
          loading := false }
        toasts := []
        request := some req }
    | .failure e =>
      { state := { pre.1 with loading := false }
        toasts := [{ text := parseApiError e, type := some .error }]
        request := some req }

/-- One full run of `ChatPage.sendMessage` (src lines 228-248). -/
def chatSendMessage (uid1 uid2 : String) (st : ChatState) (outcome : ChatOutcome) :
    ChatDispatch :=
  chatSendPost uid2 (chatSendPre uid1 st) outcome

/-- The component state of `BlockExplorerChat` that `sendMessage` reads and
writes (src lines 316-318); this surface has no model selection. -/
structure BlockState where
  messages : List ChatMessage
  input : String
  loading : Bool
deriving DecidableEq, Repr

/-- Outcome of the awaited block-explorer fetch as the code observes it: a
2xx response whose body text is `raw` and whose `JSON.parse` result is
`parsed` (`none` when the parse throws, src line 344's empty catch), or a
rejection (network error, or the `Error` thrown on non-2xx with the body
text as its message, src line 333). -/
inductive BlockOutcome where
  | success (raw : String) (parsed : Option Json)
  | failure (e : JsError)

/-- Synchronous prefix of `BlockExplorerChat.sendMessage` (src lines
320-326, up to the first `await`): trim; if blank, no-op with no request;
otherwise clear the input, append the user message, raise the loading flag,
and form the `{query}` request body. -/
def blockSendPre (uid : String) (st : BlockState) : BlockState × Option String :=
  let q := jsTrim st.input
  if q = "" then (st, none)
  else
    ({ st with
        messages := st.messages ++ [{ id := uid, role := .user, text := q }]
        input := ""
        loading := true },
      some q)

/-- Result of a whole `BlockExplorerChat.sendMessage` run: final state,
toasts pushed, and the `query` of the issued request (if any). -/
structure BlockDispatch where
  state : BlockState
  toasts : List ToastInput
  request : Option String

/-- Continuation of `BlockExplorerChat.sendMessage` after the network
outcome is known (src lines 327-351): on 2xx, resolve the body via the
tri-modal rule and append exactly one AI message with that text (no `via`);
on failure push one error toast with `parseApiError e`; in the `finally`,
drop the loading flag. -/
def blockSendPost (uid2 : String) (pre : BlockState × Option String)
    (outcome : BlockOutcome) : BlockDispatch :=
  match pre.2 with
  | none => { state := pre.1, toasts := [], request := none }
  | some q =>
    match outcome with
    | .success raw parsed =>
      { state := { pre.1 with
          messages := pre.1.messages ++
            [{ id := uid2, role := .ai, text := resolveMd raw parsed }]
          loading := false }
        toasts := []
        request := some q }
    | .failure e =>
      { state := { pre.1 with loading := false }
        toasts := [{ text := parseApiError e, type := some .error }]
        request := some q }

/-- One full run of `BlockExplorerChat.sendMessage` (src lines 320-352). -/
def blockSendMessage (uid1 uid2 : String) (st : BlockState) (outcome : BlockOutcome) :
    BlockDispatch :=
  blockSendPost uid2 (blockSendPre uid1 st) outcome

/-- The form state of `RegisterPage` (src lines 158-163). -/
structure RegState where
  modelName : String
  companyName : String
  baseUrl : String
  apiKey : String
  openAiCompatible : Bool
  submitting : Bool
deriving DecidableEq, Repr

/-- The `/register` request body (src line 173): the raw field values, with
the falsy empty string sent as `null` for the optional fields
(`baseUrl || null`, `apiKey || null`). -/
structure RegisterRequest where
  modelName : String
  companyName : String
  baseUrl : Option String
  apiKey : Option String
  openAiCompatible : Bool
deriving DecidableEq, Repr

/-- Outcome of the awaited `/register` interaction. -/
inductive RegOutcome where
  | success
  | failure (e : JsError)
deriving DecidableEq, Repr

/-- Result of a whole `RegisterPage.onSubmit` run: final form state, toasts
pushed, the issued request (if any), and whether `onRegistered()` fired the
model-list refresh (src line 176 / src line 117). -/
structure RegResult where
  state : RegState
  toasts : List ToastInput
  request : Option RegisterRequest
  refreshed : Bool
deriving DecidableEq, Repr

/-- `RegisterPage.onSubmit` (src lines 165-182): if the trimmed model name
or trimmed company name is empty (falsy), push one error toast and return
before any request; otherwise issue `/register` and, on success, reset all
fields to their defaults, push the confirmation toast and trigger the
refresh; on failure push one error toast and leave the fields as they were.
`setSubmitting(false)` runs in the `finally`. -/
def onSubmit (st : RegState) (outcome : RegOutcome) : RegResult :=
  if jsTrim st.modelName = "" ∨ jsTrim st.companyName = "" then
    { state := st
      toasts := [{ text := "Model name and company are required", type := some .error }]
      request := none
      refreshed := false }
  else
    let req : RegisterRequest :=
      { modelName := st.modelName
        companyName := st.companyName
        baseUrl := if st.baseUrl = "" then none else some st.baseUrl
        apiKey := if st.apiKey = "" then none else some st.apiKey
        openAiCompatible := st.openAiCompatible }
    match outcome with
    | .success =>
      { state :=
          { modelName := "", companyName := "", baseUrl := "", apiKey := ""
            openAiCompatible := true, submitting := false }
        toasts := [{ text := "Model registered", type := none }]
        request := some req
        refreshed := true }
    | .failure e =>
      { state := { st with submitting := false }
        toasts := [{ text := parseApiError e, type := some .error }]
        request := some req
        refreshed := false }

/-- A `fetch` call as issued by `apiGet` (src lines 27-31): the path and
the abort signal passed along, identified by the id of the owning
`AbortController` (`none` when the `signal` argument was omitted). -/
structure FetchCall where
  path : String
  signal : Option Nat
deriving DecidableEq, Repr

/-- `apiGet(path, signal?)` issues exactly one fetch carrying the signal it
was given (src line 28). -/
def apiGetCall (path : String) (signal : Option Nat) : FetchCall :=
  { path := path, signal := signal }

/-- The mount effect of `App` (src lines 54-62): it creates an
`AbortController` `c`, issues `apiGet('/')` — with NO signal argument —
and returns a cleanup that calls `c.abort()`. -/
structure AppMountEffect where
  controller : Nat
  call : FetchCall
  cleanupAborts : Nat
deriving DecidableEq, Repr

/-- The mount effect instantiated with controller id `c`: the fetch is
issued as `apiGet('/')`, so its `signal` field is `none` (src line 57). -/
def appMountEffect (c : Nat) : AppMountEffect :=
  { controller := c, call := apiGetCall "/" none, cleanupAborts := c }

/-- An abort of controller `a` cancels a fetch exactly when that fetch was
issued with `a`'s signal. -/
def abortCancelsFetch (call : FetchCall) (a : Nat) : Bool :=
  call.signal == some a

/-- A concrete registered model used to exercise the dispatch at a fixed
descriptor. -/
def exampleLlm : Llm :=
  { id := 57, modelName := "m", companyName := "c", baseUrl := none, apiKey := none,
    openAiCompatible := true }

/-- A concrete registration form with a whitespace-only model name. -/
def blankNameForm : RegState :=
  { modelName := "  ", companyName := "OpenAI", baseUrl := "", apiKey := "",
    openAiCompatible := true, submitting := false }

/-- A concrete registration form with both required names filled in. -/
def filledForm : RegState :=
  { modelName := "gpt", companyName := "OpenAI", baseUrl := "", apiKey := "k",
    openAiCompatible := false, submitting := true }

/-- Codepoints below the surrogate range survive `Char.ofNat` unchanged. -/
theorem toNat_ofNat_of_lt (n : Nat) (h : n < 55296) : (Char.ofNat n).toNat = n := by
  have hv : n.isValidChar := Or.inl h
  simp [Char.ofNat, hv, Char.ofNatAux, Char.toNat, UInt32.toNat, BitVec.toNat_ofNatLt]

/-- Reading back the digit character of a decimal digit recovers it. -/
theorem charDigit_ofNat (d : Nat) (hd : d < 10) : charDigit (Char.ofNat (48 + d)) = d := by
  rw [charDigit, toNat_ofNat_of_lt (48 + d) (by omega)]
  omega

/-- Digit-to-character-to-digit is the identity on lists of decimal digits. -/
theorem map_charDigit_id (l : List Nat) (hl : ∀ d ∈ l, d < 10) :
    l.map (charDigit ∘ fun d => Char.ofNat (48 + d)) = l := by
  induction l with
  | nil => rfl
  | cons a t ih =>
    have ha : a < 10 := hl a (List.mem_cons_self a t)
    simp only [List.map_cons, Function.comp_apply, charDigit_ofNat a ha, List.cons.injEq]
    exact ⟨trivial, ih fun d hd => hl d (List.mem_cons_of_mem a hd)⟩

/-- `Number(String(n)) = n`: the platform roundtrip behind the model select,
whose option values are `String(m.id)` and are read back with `Number`. -/
theorem jsNumber_jsStringOfNat (n : Nat) : jsNumber (jsStringOfNat n) = n := by
  by_cases h0 : n = 0
  · subst h0; decide
  · rw [jsStringOfNat, if_neg h0, jsNumber]
    show Nat.ofDigits 10 ((((Nat.digits 10 n).map _).reverse.map charDigit).reverse) = n
    rw [← List.map_reverse, List.reverse_reverse, List.map_map]
    rw [map_charDigit_id _ (fun d hd => Nat.digits_lt_base (by norm_num) hd)]
    exact Nat.ofDigits_digits 10 n

/-- A decimal digit string is never the literal `'auto'`, so selecting a
registered model is always distinguished from the auto-route sentinel. -/
theorem jsStringOfNat_ne_auto (n : Nat) : jsStringOfNat n ≠ "auto" := by
  by_cases h0 : n = 0
  · rw [jsStringOfNat, if_pos h0]; decide
  · rw [jsStringOfNat, if_neg h0]
    intro heq
    have hdata : ((Nat.digits 10 n).map (fun d => Char.ofNat (48 + d))).reverse =
        ['a', 'u', 't', 'o'] := congrArg String.data heq
    have ha : 'a' ∈ ((Nat.digits 10 n).map (fun d => Char.ofNat (48 + d))).reverse := by
      rw [hdata]; simp
    rw [List.mem_reverse, List.mem_map] at ha
    obtain ⟨d, hd, hchar⟩ := ha
    have hd10 : d < 10 := Nat.digits_lt_base (by norm_num) hd
    have htn : (Char.ofNat (48 + d)).toNat = 'a'.toNat := congrArg Char.toNat hchar
    rw [toNat_ofNat_of_lt (48 + d) (by omega)] at htn
    have : 48 + d = 97 := htn
    omega

/-- Claim C1: for every raw block-explorer response body, the text of the
one AI message appended on a 2xx outcome is resolved in precedence order:
a body that JSON-parses to a string yields that string; a body that parses
to an object with a string field `response` yields that field; a body on
which the parse throws yields the raw text verbatim. -/
theorem thm_C1 (st : BlockState) (u1 u2 raw : String) (parsed : Option Json)
    (hnb : jsTrim st.input ≠ "") :
    ((blockSendMessage u1 u2 st (.success raw parsed)).state.messages
      = st.messages ++
        [{ id := u1, role := .user, text := jsTrim st.input },
         { id := u2, role := .ai, text := resolveMd raw parsed }])
    ∧ (∀ s, parsed = some (Json.str s) → resolveMd raw parsed = s)
    ∧ (∀ fields s, parsed = some (Json.obj fields) →
        fields.lookup "response" = some (Json.str s) → resolveMd raw parsed = s)
    ∧ (parsed = none → resolveMd raw parsed = raw) := by
  refine ⟨?_, ?_, ?_, ?_⟩
  · simp [blockSendMessage, blockSendPre, blockSendPost, hnb]
  · rintro s rfl
    rfl
  · rintro fields s rfl hlook
    simp [resolveMd, responseField, hlook]
  · rintro rfl
    rfl

/-- Witness for C1 at a concrete dispatch: the `{"response": ...}` shape. -/
theorem wit_C1 :
    ((blockSendMessage "u" "a"
        { messages := [], input := "tx?", loading := false }
        (.success "\x7b\"response\":\"Nested\"\x7d" (some (Json.obj [("response", Json.str "Nested")])))).state.messages
      = [] ++
        [{ id := "u", role := .user, text := jsTrim "tx?" },
         { id := "a", role := .ai,
           text := resolveMd "\x7b\"response\":\"Nested\"\x7d" (some (Json.obj [("response", Json.str "Nested")])) }])
    ∧ resolveMd "\x7b\"response\":\"Nested\"\x7d" (some (Json.obj [("response", Json.str "Nested")])) = "Nested" := by
  have h := thm_C1 { messages := [], input := "tx?", loading := false } "u" "a"
    "\x7b\"response\":\"Nested\"\x7d" (some (Json.obj [("response", Json.str "Nested")])) (by decide)
  exact ⟨h.1, h.2.2.1 [("response", Json.str "Nested")] "Nested" rfl rfl⟩

/-- Claim C2 counterexample: toast 1 is pushed at time 0 and toast 2 at
time 2000; the claim says toast 1 is gone by time 3500 + ε regardless of
the second push, yet at time 3600 toast 1 is still displayed, because the
second push made the `ToastContainer` effect clear toast 1's pending
timeout and reschedule both toasts for time 5500. -/
theorem cex_C2 :
    ((advanceTo 5
        (pushEvent (pushEvent { toasts := [], timers := [] } 0 1 { text := "A", type := some .error })
          2000 2 { text := "B" })
        3600).toasts.map Toast.id) = [1, 2]
    ∧ (pushEvent (pushEvent { toasts := [], timers := [] } 0 1 { text := "A", type := some .error })
          2000 2 { text := "B" }).timers = [(1, 5500), (2, 5500)] := by
  constructor
  · decide
  · decide

/-- Claim C2 (amended): expiry timers are not independent per item — every
change of the toast list clears all pending timeouts and schedules, for
every toast then in the list, a fresh timeout 3.5 s after that change
(second conjunct).  Hence a Notification pushed at time T is removed at
T + 3.5 s only when no other push or removal intervenes: pushed into an
idle system with no further events, it is gone once time reaches
T + 3.5 s (first conjunct). -/
theorem thm_C2 (T idn : Nat) (t : ToastInput) (s : ToastSys) (time newId : Nat)
    (u : ToastInput) :
    (advanceTo 2 (pushEvent { toasts := [], timers := [] } T idn t) (T + expiryMs)).toasts = []
    ∧ (pushEvent s time newId u).timers
      = (storePush s.toasts newId u).map (fun x => (x.id, time + expiryMs)) := by
  constructor
  · simp [advanceTo, pushEvent, storePush, rescheduleAll, dueTimer, fireOne, storeRemove,
      List.find?]
  · rfl

/-- Claim C3: on either chat surface, a query that is blank after trimming
makes `sendMessage` a complete no-op — state unchanged, no toast, no
request — while a non-blank query already has, in the synchronous prefix
that precedes any network activity, exactly one user message with the
trimmed text appended, and a request formed. -/
theorem thm_C3 (stC : ChatState) (stB : BlockState) (u1 u2 : String)
    (oC : ChatOutcome) (oB : BlockOutcome) :
    (jsTrim stC.input = "" →
      chatSendMessage u1 u2 stC oC = { state := stC, toasts := [], request := none })
    ∧ (jsTrim stB.input = "" →
      blockSendMessage u1 u2 stB oB = { state := stB, toasts := [], request := none })
    ∧ (jsTrim stC.input ≠ "" →
      (chatSendPre u1 stC).1.messages
        = stC.messages ++ [{ id := u1, role := .user, text := jsTrim stC.input }]
      ∧ (chatSendPre u1 stC).2
        = some { query := jsTrim stC.input, modelId := modelIdOf stC.selectedModel })
    ∧ (jsTrim stB.input ≠ "" →
      (blockSendPre u1 stB).1.messages
        = stB.messages ++ [{ id := u1, role := .user, text := jsTrim stB.input }]
      ∧ (blockSendPre u1 stB).2 = some (jsTrim stB.input)) := by
  refine ⟨?_, ?_, ?_, ?_⟩
  · intro h
    simp [chatSendMessage, chatSendPre, chatSendPost, h]
  · intro h
    simp [blockSendMessage, blockSendPre, blockSendPost, h]
  · intro h
    simp [chatSendPre, h]
  · intro h
    simp [blockSendPre, h]

/-- Witness for C3: a whitespace-only send is a no-op on both surfaces, and
a non-blank send appends the trimmed user message in the prefix. -/
theorem wit_C3 :
    (chatSendMessage "u" "a"
        { messages := [], input := "   ", loading := false, selectedModel := "auto" }
        (.success "r" "v")
      = { state := { messages := [], input := "   ", loading := false, selectedModel := "auto" },
          toasts := [], request := none })
    ∧ (blockSendMessage "u" "a" { messages := [], input := " ", loading := false }
        (.failure (.other none))
      = { state := { messages := [], input := " ", loading := false },
          toasts := [], request := none })
    ∧ ((chatSendPre "u"
        { messages := [], input := " hi ", loading := false, selectedModel := "auto" }).1.messages
      = [] ++ [{ id := "u", role := .user, text := jsTrim " hi " }])
    ∧ ((blockSendPre "u" { messages := [], input := " tx ", loading := false }).2
      = some (jsTrim " tx ")) := by
  refine ⟨?_, ?_, ?_, ?_⟩
  · exact (thm_C3 { messages := [], input := "   ", loading := false, selectedModel := "auto" }
      { messages := [], input := " ", loading := false } "u" "a"
      (.success "r" "v") (.failure (.other none))).1 (by decide)
  · exact (thm_C3 { messages := [], input := "   ", loading := false, selectedModel := "auto" }
      { messages := [], input := " ", loading := false } "u" "a"
      (.success "r" "v") (.failure (.other none))).2.1 (by decide)
  · exact ((thm_C3 { messages := [], input := " hi ", loading := false, selectedModel := "auto" }
      { messages := [], input := " tx ", loading := false } "u" "a"
      (.success "r" "v") (.failure (.other none))).2.2.1 (by decide)).1
  · exact ((thm_C3 { messages := [], input := " hi ", loading := false, selectedModel := "auto" }
      { messages := [], input := " tx ", loading := false } "u" "a"
      (.success "r" "v") (.failure (.other none))).2.2.2 (by decide)).2

/-- Claim C4: the `/chat` request body carries `modelId = null` when the
selection is `'auto'` and the integer id of the selected descriptor when
the selection is that descriptor's option value `String(m.id)`; and a
successful response `{response, response_generated_via}` appends exactly
one AI message carrying those two fields (and no toast). -/
theorem thm_C4 (st : ChatState) (u1 u2 : String) (m : Llm) (o : ChatOutcome)
    (r v : String) (hnb : jsTrim st.input ≠ "") :
    (st.selectedModel = "auto" →
      (chatSendMessage u1 u2 st o).request
        = some { query := jsTrim st.input, modelId := none })
    ∧ (st.selectedModel = optionValue m →
      (chatSendMessage u1 u2 st o).request
        = some { query := jsTrim st.input, modelId := some m.id })
    ∧ ((chatSendMessage u1 u2 st (.success r v)).state.messages
      = st.messages ++
        [{ id := u1, role := .user, text := jsTrim st.input },
         { id := u2, role := .ai, text := r, via := some v }])
    ∧ (chatSendMessage u1 u2 st (.success r v)).toasts = [] := by
  refine ⟨?_, ?_, ?_, ?_⟩
  · intro hsel
    cases o <;>
      simp [chatSendMessage, chatSendPre, chatSendPost, hnb, modelIdOf, hsel]
  · intro hsel
    have hne : st.selectedModel ≠ "auto" := by
      rw [hsel, optionValue]
      exact jsStringOfNat_ne_auto m.id
    cases o <;>
      simp [chatSendMessage, chatSendPre, chatSendPost, hnb, modelIdOf, hne, hsel,
        optionValue, jsNumber_jsStringOfNat, jsStringOfNat_ne_auto]
  · simp [chatSendMessage, chatSendPre, chatSendPost, hnb]
  · simp [chatSendMessage, chatSendPre, chatSendPost, hnb]

/-- Witness for C4: a concrete dispatch with descriptor id 57 selected, and
a concrete successful response. -/
theorem wit_C4 :
    ((chatSendMessage "u" "a"
        { messages := [], input := "hi", loading := false,
          selectedModel := optionValue exampleLlm }
        (.success "Hi" "gpt-4o-mini")).request
      = some { query := jsTrim "hi", modelId := some exampleLlm.id })
    ∧ ((chatSendMessage "u" "a"
        { messages := [], input := "hi", loading := false,
          selectedModel := optionValue exampleLlm }
        (.success "Hi" "gpt-4o-mini")).state.messages
      = [] ++
        [{ id := "u", role := .user, text := jsTrim "hi" },
         { id := "a", role := .ai, text := "Hi", via := some "gpt-4o-mini" }]) := by
  have h := thm_C4
    { messages := [], input := "hi", loading := false,
      selectedModel := optionValue exampleLlm }
    "u" "a" exampleLlm
    (.success "Hi" "gpt-4o-mini") "Hi" "gpt-4o-mini" (by decide)
  exact ⟨h.2.1 rfl, h.2.2.1⟩

/-- Claim C5: a dispatch that fails after the request was issued appends no
AI message and pushes exactly one error toast whose text is the failure's
message via `parseApiError`, on both surfaces; and `parseApiError` falls
back to `'Request failed'` exactly when no message is extractable (an
`Error` with empty message, or a value whose string conversion throws). -/
theorem thm_C5 (stC : ChatState) (stB : BlockState) (u1 u2 : String) (e : JsError)
    (hnbC : jsTrim stC.input ≠ "") (hnbB : jsTrim stB.input ≠ "") :
    ((chatSendMessage u1 u2 stC (.failure e)).state.messages
      = stC.messages ++ [{ id := u1, role := .user, text := jsTrim stC.input }]
    ∧ (chatSendMessage u1 u2 stC (.failure e)).toasts
      = [{ text := parseApiError e, type := some .error }])
    ∧ ((blockSendMessage u1 u2 stB (.failure e)).state.messages
      = stB.messages ++ [{ id := u1, role := .user, text := jsTrim stB.input }]
    ∧ (blockSendMessage u1 u2 stB (.failure e)).toasts
      = [{ text := parseApiError e, type := some .error }])
    ∧ parseApiError (.errorObj "") = "Request failed"
    ∧ parseApiError (.other none) = "Request failed"
    ∧ (∀ msg, msg ≠ "" → parseApiError (.errorObj msg) = msg) := by
  refine ⟨⟨?_, ?_⟩, ⟨?_, ?_⟩, rfl, rfl, ?_⟩
  · simp [chatSendMessage, chatSendPre, chatSendPost, hnbC]
  · simp [chatSendMessage, chatSendPre, chatSendPost, hnbC]
  · simp [blockSendMessage, blockSendPre, blockSendPost, hnbB]
  · simp [blockSendMessage, blockSendPre, blockSendPost, hnbB]
  · intro msg hmsg
    simp [parseApiError, hmsg]

/-- Witness for C5: the non-2xx body `'model not found'` surfaces as the
single error toast and no AI message is appended. -/
theorem wit_C5 :
    ((chatSendMessage "u" "a"
        { messages := [], input := "q", loading := false, selectedModel := "auto" }
        (.failure (.errorObj "model not found"))).state.messages
      = [] ++ [{ id := "u", role := .user, text := jsTrim "q" }])
    ∧ ((chatSendMessage "u" "a"
        { messages := [], input := "q", loading := false, selectedModel := "auto" }
        (.failure (.errorObj "model not found"))).toasts
      = [{ text := parseApiError (.errorObj "model not found"), type := some .error }])
    ∧ parseApiError (.errorObj "") = "Request failed" := by
  have h := thm_C5
    { messages := [], input := "q", loading := false, selectedModel := "auto" }
    { messages := [], input := "q", loading := false } "u" "a"
    (.errorObj "model not found") (by decide) (by decide)
  exact ⟨h.1.1, h.1.2, h.2.2.1⟩

/-- Claim C6: on both surfaces, for every outcome of a dispatch — success,
failure, or an exception from response parsing, all of which reach the
`finally` — the surface's loading flag is false in the final state. -/
theorem thm_C6 (stC : ChatState) (stB : BlockState) (u1 u2 : String)
    (oC : ChatOutcome) (oB : BlockOutcome)
    (hnbC : jsTrim stC.input ≠ "") (hnbB : jsTrim stB.input ≠ "") :
    (chatSendMessage u1 u2 stC oC).state.loading = false
    ∧ (blockSendMessage u1 u2 stB oB).state.loading = false := by
  constructor
  · cases oC <;> simp [chatSendMessage, chatSendPre, chatSendPost, hnbC]
  · cases oB <;> simp [blockSendMessage, blockSendPre, blockSendPost, hnbB]

/-- Witness for C6: concrete dispatches, one failing and one succeeding,
both end with the loading flag cleared. -/
theorem wit_C6 :
    (chatSendMessage "u" "a"
      { messages := [], input := "q", loading := false, selectedModel := "auto" }
      (.failure (.other none))).state.loading = false
    ∧ (blockSendMessage "u" "a" { messages := [], input := "q", loading := false }
      (.success "ok" none)).state.loading = false :=
  thm_C6 { messages := [], input := "q", loading := false, selectedModel := "auto" }
    { messages := [], input := "q", loading := false } "u" "a"
    (.failure (.other none)) (.success "ok" none) (by decide) (by decide)

/-- Claim C10: a failed dispatch does not roll back the optimistically
appended user message: on both surfaces the conversation after the failure
is exactly the conversation before the send plus that one user message,
with no AI reply following it. -/
theorem thm_C10 (stC : ChatState) (stB : BlockState) (u1 u2 : String) (e : JsError)
    (hnbC : jsTrim stC.input ≠ "") (hnbB : jsTrim stB.input ≠ "") :
    (chatSendMessage u1 u2 stC (.failure e)).state.messages
      = stC.messages ++ [{ id := u1, role := .user, text := jsTrim stC.input }]
    ∧ (blockSendMessage u1 u2 stB (.failure e)).state.messages
      = stB.messages ++ [{ id := u1, role := .user, text := jsTrim stB.input }] := by
  constructor
  · simp [chatSendMessage, chatSendPre, chatSendPost, hnbC]
  · simp [blockSendMessage, blockSendPre, blockSendPost, hnbB]

/-- Witness for C10: a concrete failed dispatch on each surface leaves the
lone user turn in place. -/
theorem wit_C10 :
    (chatSendMessage "u" "a"
      { messages := [], input := "q", loading := false, selectedModel := "auto" }
      (.failure (.errorObj "boom"))).state.messages
      = [] ++ [{ id := "u", role := .user, text := jsTrim "q" }]
    ∧ (blockSendMessage "u" "a" { messages := [], input := "q", loading := false }
      (.failure (.errorObj "boom"))).state.messages
      = [] ++ [{ id := "u", role := .user, text := jsTrim "q" }] :=
  thm_C10 { messages := [], input := "q", loading := false, selectedModel := "auto" }
    { messages := [], input := "q", loading := false } "u" "a"
    (.errorObj "boom") (by decide) (by decide)

/-- Claim C7: a registration submission whose trimmed model name or trimmed
provider name is empty is rejected entirely locally, for every possible
network outcome: the form state is untouched, exactly one validation toast
is pushed, no request is issued, and no refresh fires. -/
theorem thm_C7 (st : RegState) (o : RegOutcome)
    (hblank : jsTrim st.modelName = "" ∨ jsTrim st.companyName = "") :
    onSubmit st o
      = { state := st
          toasts := [{ text := "Model name and company are required", type := some .error }]
          request := none
          refreshed := false } := by
  rw [onSubmit, if_pos hblank]

/-- Witness for C7: submitting with a whitespace-only model name. -/
theorem wit_C7 :
    onSubmit blankNameForm .success
      = { state := blankNameForm
          toasts := [{ text := "Model name and company are required", type := some .error }]
          request := none
          refreshed := false } :=
  thm_C7 blankNameForm .success (by left; decide)

/-- Claim C8: a submission that reaches the network (both names non-blank)
resets every form field to its default, pushes the confirmation toast and
triggers the registry refresh on success; on failure it pushes one error
toast, leaves every form field value unchanged (only the submitting flag
drops), and triggers no refresh.  In both cases a request was issued. -/
theorem thm_C8 (st : RegState) (e : JsError)
    (h1 : jsTrim st.modelName ≠ "") (h2 : jsTrim st.companyName ≠ "") :
    ((onSubmit st .success).state
      = { modelName := "", companyName := "", baseUrl := "", apiKey := "",
          openAiCompatible := true, submitting := false }
    ∧ (onSubmit st .success).toasts = [{ text := "Model registered" }]
    ∧ (onSubmit st .success).refreshed = true
    ∧ (onSubmit st .success).request.isSome = true)
    ∧ ((onSubmit st (.failure e)).state = { st with submitting := false }
    ∧ (onSubmit st (.failure e)).toasts
      = [{ text := parseApiError e, type := some .error }]
    ∧ (onSubmit st (.failure e)).refreshed = false
    ∧ (onSubmit st (.failure e)).request.isSome = true) := by
  have hcond : ¬(jsTrim st.modelName = "" ∨ jsTrim st.companyName = "") := by
    rintro (h | h)
    · exact h1 h
    · exact h2 h
  constructor
  · rw [onSubmit, if_neg hcond]
    exact ⟨rfl, rfl, rfl, rfl⟩
  · rw [onSubmit, if_neg hcond]
    exact ⟨rfl, rfl, rfl, rfl⟩

/-- Witness for C8: a concrete filled form, submitted once successfully and
once failing with a non-2xx body. -/
theorem wit_C8 :
    ((onSubmit filledForm .success).state
      = { modelName := "", companyName := "", baseUrl := "", apiKey := "",
          openAiCompatible := true, submitting := false })
    ∧ ((onSubmit filledForm .success).refreshed = true)
    ∧ ((onSubmit filledForm (.failure (.errorObj "duplicate"))).state
      = { filledForm with submitting := false })
    ∧ ((onSubmit filledForm (.failure (.errorObj "duplicate"))).toasts
      = [{ text := parseApiError (.errorObj "duplicate"), type := some .error }]) := by
  have h := thm_C8 filledForm (.errorObj "duplicate") (by decide) (by decide)
  exact ⟨h.1.1, h.1.2.2.1, h.2.1, h.2.2.1⟩

/-- Claim C9: contrary to the claim, the initial model-list fetch is NOT
tied to the mount-lifetime abort signal.  `App`'s mount effect creates the
controller `c` and its cleanup calls `c.abort()`, but `apiGet('/')` is
invoked without `c.signal` (src line 57), so the issued fetch carries no
signal and the teardown abort never cancels it — the resolved result is
still handed to `setLlms` rather than discarded. -/
theorem thm_C9 (c : Nat) :
    (appMountEffect c).call = apiGetCall "/" none
    ∧ abortCancelsFetch (appMountEffect c).call (appMountEffect c).cleanupAborts = false := by
  exact ⟨rfl, rfl⟩
